import Mathlib

/-!
Shallow embedding of `src/biblioteca.py` (library management core):
the `Libro` record, the loan operations `prestar_libro` / `devolver_libro`,
and the `Biblioteca` catalog with its JSON-dictionary persistence layer.

Conventions of the embedding:
* Python exceptions become an explicit error component (`Except BibError`);
  an operation that may raise returns the post-state of the mutated object
  together with the outcome, so that "the exception leaves the object
  unchanged" is expressible.
* `datetime.now()` is modelled as an input: `prestar_libro` reads the clock
  twice in the source (once for `fecha_prestamo`, once for
  `fecha_devolucion`), so the embedding takes two clock samples `now1`,
  `now2`.  Timestamps are integers (microseconds, the resolution of
  `datetime`); `timedelta(days=d)` is `d * microsecondsPerDay`.
* The JSON file is modelled as `Option (List LibroDict)`: `none` when the
  file does not exist, otherwise the parsed list of flat dictionaries.
  A `LibroDict` field is `none` when the key is absent (for the three
  optional loan fields, also when it is null: `dict.get` does not
  distinguish the two).
-/

namespace Biblio

/-- The error kinds surfaced by the core (Python raises `ValueError` /
`KeyError` with distinct messages; the embedding distinguishes them by
constructor). -/
inductive BibError where
  | invalidArgument
  | duplicateKey
  | notFound
  | corruptData
deriving DecidableEq, Repr

/-- Embedding of class `Libro`: one catalog entry and its loan state.
Timestamps (`fecha_prestamo`, `fecha_devolucion`) are integer microsecond
counts standing for the ISO-8601 strings of the source. -/
structure Libro where
  titulo : String
  autor : String
  isbn : String
  genero : String
  disponible : Bool
  fecha_prestamo : Option Int
  fecha_devolucion : Option Int
  prestatario : Option String
deriving DecidableEq, Repr

/-- Embedding of `Libro.__init__`: a freshly constructed book is available with no loan
fields. -/
def Libro.init (titulo autor isbn : String) (genero : String := "General") : Libro :=
  { titulo := titulo
    autor := autor
    isbn := isbn
    genero := genero
    disponible := true
    fecha_prestamo := none
    fecha_devolucion := none
    prestatario := none }

/-- The flat key-value form of a `Libro` used for JSON persistence.
`none` in `titulo`/`autor`/`isbn`/`genero`/`disponible` means the key is
absent from the dictionary; for the three optional loan fields `none`
means absent-or-null (the source reads them with `dict.get`, which does
not distinguish the two). -/
structure LibroDict where
  titulo : Option String
  autor : Option String
  isbn : Option String
  genero : Option String
  disponible : Option Bool
  fecha_prestamo : Option Int
  fecha_devolucion : Option Int
  prestatario : Option String
deriving DecidableEq, Repr

/-- Embedding of `Libro.to_dict`: every key is written, absent loan fields as explicit
nulls. -/
def Libro.to_dict (l : Libro) : LibroDict :=
  { titulo := some l.titulo
    autor := some l.autor
    isbn := some l.isbn
    genero := some l.genero
    disponible := some l.disponible
    fecha_prestamo := l.fecha_prestamo
    fecha_devolucion := l.fecha_devolucion
    prestatario := l.prestatario }

/-- Embedding of `Libro.from_dict`: `datos["titulo"]`, `datos["autor"]`, `datos["isbn"]`
raise `KeyError` when absent (modelled as `corruptData`); `genero` defaults
to `"General"`, `disponible` to `True`, and the loan fields to `None` via
`dict.get`. -/
def Libro.from_dict (datos : LibroDict) : Except BibError Libro :=
  match datos.titulo, datos.autor, datos.isbn with
  | some t, some a, some i =>
      Except.ok
        { titulo := t
          autor := a
          isbn := i
          genero := datos.genero.getD "General"
          disponible := datos.disponible.getD true
          fecha_prestamo := datos.fecha_prestamo
          fecha_devolucion := datos.fecha_devolucion
          prestatario := datos.prestatario }
  | _, _, _ => Except.error BibError.corruptData

/-- Embedding of Python `str.strip()`: drop leading and trailing
whitespace characters. -/
def strip (s : String) : String :=
  ⟨((s.data.dropWhile Char.isWhitespace).reverse.dropWhile Char.isWhitespace).reverse⟩

/-- Value of `timedelta(days=1)` in microseconds, the resolution of `datetime`. -/
def microsecondsPerDay : Int := 86400000000

/-- Embedding of `prestar_libro(libro, prestatario, dias_prestamo)`.  The source reads
the clock twice: `fecha_prestamo = datetime.now()` and
`fecha_devolucion = datetime.now() + timedelta(days=dias_prestamo)`;
`now1` and `now2` are those two samples.  Returns the post-state of the
book and the outcome (`ValueError` on a blank borrower name, `False` when
the book is not available, `True` when the loan is performed). -/
def prestar_libro (libro : Libro) (prestatario : String) (now1 now2 : Int)
    (dias_prestamo : Int := 14) : Libro × Except BibError Bool :=
  if strip prestatario = "" then
    (libro, Except.error BibError.invalidArgument)
  else if libro.disponible = false then
    (libro, Except.ok false)
  else
    ({ libro with
        disponible := false
        prestatario := some (strip prestatario)
        fecha_prestamo := some now1
        fecha_devolucion := some (now2 + dias_prestamo * microsecondsPerDay) },
      Except.ok true)

/-- Embedding of `devolver_libro(libro)`: returns the post-state of the book and the
boolean outcome. -/
def devolver_libro (libro : Libro) : Libro × Bool :=
  if libro.disponible then
    (libro, false)
  else
    ({ libro with
        disponible := true
        prestatario := none
        fecha_prestamo := none
        fecha_devolucion := none },
      true)

/-- The `Biblioteca` state: the in-memory list of books and the persisted
JSON document (`none` when the file does not exist). -/
structure Biblioteca where
  libros : List Libro
  archivo : Option (List LibroDict)
deriving DecidableEq, Repr

/-- Embedding of `Biblioteca.guardar_datos`: overwrite the file with the flat forms of
all books. -/
def Biblioteca.guardar_datos (b : Biblioteca) : Biblioteca :=
  { b with archivo := some (b.libros.map Libro.to_dict) }

/-- Embedding of `Biblioteca.buscar_por_isbn`: linear scan returning the first book
whose `isbn` equals the argument exactly. -/
def Biblioteca.buscar_por_isbn (b : Biblioteca) (isbn : String) : Option Libro :=
  b.libros.find? (fun l => l.isbn == isbn)

/-- Embedding of `Biblioteca.agregar_libro`: `ValueError` when `buscar_por_isbn` finds a
book (duplicate ISBN), otherwise append a fresh `Libro` and save. -/
def Biblioteca.agregar_libro (b : Biblioteca) (titulo autor isbn : String)
    (genero : String := "General") : Biblioteca × Except BibError Libro :=
  match b.buscar_por_isbn isbn with
  | some _ => (b, Except.error BibError.duplicateKey)
  | none =>
      let libro := Libro.init titulo autor isbn genero
      (Biblioteca.guardar_datos { b with libros := b.libros ++ [libro] },
        Except.ok libro)

/-- Embedding of `Biblioteca.eliminar_libro`: remove the book found by
`buscar_por_isbn` when it exists and is available (Python
`list.remove` deletes exactly that first matching object), save, return
`True`; otherwise return `False` unchanged. -/
def Biblioteca.eliminar_libro (b : Biblioteca) (isbn : String) : Biblioteca × Bool :=
  match b.buscar_por_isbn isbn with
  | some libro =>
      if libro.disponible then
        (Biblioteca.guardar_datos
          { b with libros := b.libros.eraseP (fun l => l.isbn == isbn) }, true)
      else
        (b, false)
  | none => (b, false)

/-- Replace the first element satisfying `p` (the in-place mutation of the
object returned by `buscar_por_isbn`, as seen by the list). -/
def updateFirst (p : Libro → Bool) (x : Libro) : List Libro → List Libro
  | [] => []
  | a :: as => if p a then x :: as else a :: updateFirst p x as

/-- Embedding of `Biblioteca.prestar`: `ValueError` (not-found) when no book matches,
otherwise delegate to `prestar_libro` (whose blank-name `ValueError`
propagates) and save only when the loan was performed. -/
def Biblioteca.prestar (b : Biblioteca) (isbn prestatario : String)
    (now1 now2 : Int) (dias : Int := 14) : Biblioteca × Except BibError Bool :=
  match b.buscar_por_isbn isbn with
  | none => (b, Except.error BibError.notFound)
  | some libro =>
      match prestar_libro libro prestatario now1 now2 dias with
      | (_, Except.error e) => (b, Except.error e)
      | (_, Except.ok false) => (b, Except.ok false)
      | (libro', Except.ok true) =>
          (Biblioteca.guardar_datos
            { b with libros := updateFirst (fun l => l.isbn == isbn) libro' b.libros },
            Except.ok true)

/-- Embedding of `Biblioteca.devolver`: `ValueError` (not-found) when no book matches,
otherwise delegate to `devolver_libro` and save only when the return was
performed. -/
def Biblioteca.devolver (b : Biblioteca) (isbn : String) : Biblioteca × Except BibError Bool :=
  match b.buscar_por_isbn isbn with
  | none => (b, Except.error BibError.notFound)
  | some libro =>
      match devolver_libro libro with
      | (_, false) => (b, Except.ok false)
      | (libro', true) =>
          (Biblioteca.guardar_datos
            { b with libros := updateFirst (fun l => l.isbn == isbn) libro' b.libros },
            Except.ok true)

/-- The list comprehension `[Libro.from_dict(d) for d in datos]`: builds
the books in order, propagating the first error. -/
def cargar_lista : List LibroDict → Except BibError (List Libro)
  | [] => Except.ok []
  | d :: ds =>
      match Libro.from_dict d with
      | Except.error e => Except.error e
      | Except.ok l =>
          match cargar_lista ds with
          | Except.error e => Except.error e
          | Except.ok ls => Except.ok (l :: ls)

/-- Embedding of `Biblioteca.cargar_datos`: empty catalog when the file is absent,
otherwise deserialize every dictionary (errors propagate). -/
def Biblioteca.cargar_datos : Option (List LibroDict) → Except BibError (List Libro)
  | none => Except.ok []
  | some ds => cargar_lista ds

/-- Embedding of `Biblioteca.__init__`: starts from the persisted file; a
deserialization error is fatal to construction. -/
def Biblioteca.init (archivo : Option (List LibroDict)) : Except BibError Biblioteca :=
  match Biblioteca.cargar_datos archivo with
  | Except.error e => Except.error e
  | Except.ok ls => Except.ok { libros := ls, archivo := archivo }

/-! ### Search and removal -/

/-- Decomposition of a successful linear search: the found element is the
first match, and erasing by the same predicate removes exactly it. -/
lemma find?_decomp {α : Type} {p : α → Bool} {xs : List α} {l : α}
    (h : xs.find? p = some l) :
    ∃ pre post, xs = pre ++ l :: post ∧ (∀ x ∈ pre, p x = false)
      ∧ xs.eraseP p = pre ++ post := by
  induction xs with
  | nil => simp at h
  | cons a as ih =>
      cases hp : p a with
      | true =>
          rw [List.find?_cons_of_pos _ hp] at h
          obtain rfl : a = l := by injection h
          exact ⟨[], as, rfl, by simp, by simp [hp]⟩
      | false =>
          rw [List.find?_cons_of_neg _ (by simp [hp])] at h
          obtain ⟨pre, post, h1, h2, h3⟩ := ih h
          refine ⟨a :: pre, post, by simp [h1], ?_, ?_⟩
          · intro x hx
            rcases List.mem_cons.mp hx with rfl | hx2
            · exact hp
            · exact h2 x hx2
          · simp [List.eraseP_cons, hp, h3]

/-- C10: the ISBN search returns `none` exactly when no book has the given
ISBN, and when it returns a book that book is the earliest exact match in
catalog order (everything before it in the list has a different ISBN). -/
theorem buscar_por_isbn_spec (b : Biblioteca) (isbn : String) :
    (b.buscar_por_isbn isbn = none ↔ ∀ l ∈ b.libros, l.isbn ≠ isbn)
    ∧ ∀ l, b.buscar_por_isbn isbn = some l →
        l.isbn = isbn ∧ l ∈ b.libros
        ∧ ∃ pre post, b.libros = pre ++ l :: post ∧ ∀ x ∈ pre, x.isbn ≠ isbn := by
  constructor
  · simp [Biblioteca.buscar_por_isbn, List.find?_eq_none]
  · intro l h
    have hisbn : l.isbn = isbn := by
      have := List.find?_some h
      simpa using this
    obtain ⟨pre, post, h1, h2, _⟩ := find?_decomp h
    refine ⟨hisbn, by simp [h1], pre, post, h1, ?_⟩
    intro x hx
    have := h2 x hx
    simpa using this

/-- Catalog with two records sharing ISBN `"x"`, used to witness the
earliest-match behaviour. -/
def bibliotecaDup : Biblioteca :=
  { libros := [Libro.init "A" "B" "x" "G", Libro.init "C" "D" "x" "G"]
    archivo := none }

/-- Witness for C10: on a catalog with a duplicated ISBN the search
returns the earliest matching record. -/
theorem buscar_por_isbn_spec_witness :
    (Libro.init "A" "B" "x" "G").isbn = "x"
    ∧ (Libro.init "A" "B" "x" "G") ∈ bibliotecaDup.libros
    ∧ ∃ pre post, bibliotecaDup.libros = pre ++ (Libro.init "A" "B" "x" "G") :: post
        ∧ ∀ x ∈ pre, x.isbn ≠ "x" :=
  (buscar_por_isbn_spec bibliotecaDup "x").2 (Libro.init "A" "B" "x" "G") (by decide)

/-- C7: removal succeeds exactly when the ISBN search finds an available
book, in which case that first matching book is removed from the list;
when nothing matches, or the first match is loaned, removal returns
`false` and the whole catalog state is unchanged. -/
theorem eliminar_libro_spec (b : Biblioteca) (isbn : String) :
    (b.buscar_por_isbn isbn).elim
      (b.eliminar_libro isbn = (b, false))
      (fun l => cond l.disponible
        ((b.eliminar_libro isbn).2 = true
          ∧ ∃ pre post, b.libros = pre ++ l :: post
              ∧ (∀ x ∈ pre, x.isbn ≠ isbn)
              ∧ (b.eliminar_libro isbn).1.libros = pre ++ post)
        (b.eliminar_libro isbn = (b, false))) := by
  cases hb : b.buscar_por_isbn isbn with
  | none => simp [Biblioteca.eliminar_libro, hb]
  | some l =>
      cases hd : l.disponible with
      | false => simp [Biblioteca.eliminar_libro, hb, hd]
      | true =>
          obtain ⟨pre, post, h1, h2, h3⟩ := find?_decomp hb
          simp only [Option.elim, hd, cond_true]
          refine ⟨by simp [Biblioteca.eliminar_libro, hb, hd], pre, post, h1, ?_, ?_⟩
          · intro x hx
            have := h2 x hx
            simpa using this
          · simp [Biblioteca.eliminar_libro, hb, hd, Biblioteca.guardar_datos, h3]

/-! ### Catalog lend and return -/

/-- The loan operation raises only the blank-borrower error, never the
not-found one. -/
lemma prestar_libro_error_inv {l : Libro} {p : String} {t1 t2 d : Int} {e : BibError}
    (h : (prestar_libro l p t1 t2 d).2 = Except.error e) :
    e = BibError.invalidArgument := by
  by_cases hp : strip p = ""
  · simp [prestar_libro, hp] at h
    exact h.symm
  · by_cases hd : l.disponible = false <;> simp [prestar_libro, hp, hd] at h

/-- Catalog lend: not-found error exactly on a missing ISBN, outcome
delegated to `prestar_libro`, persistence exactly on a performed loan. -/
lemma prestar_spec_aux (b : Biblioteca) (isbn p : String) (t1 t2 d : Int) :
    ((b.prestar isbn p t1 t2 d).2 = Except.error BibError.notFound
        ↔ b.buscar_por_isbn isbn = none)
    ∧ (b.prestar isbn p t1 t2 d).2
        = (b.buscar_por_isbn isbn).elim (Except.error BibError.notFound)
            (fun l => (prestar_libro l p t1 t2 d).2)
    ∧ (((b.prestar isbn p t1 t2 d).2 = Except.ok true
          ∧ (b.prestar isbn p t1 t2 d).1.archivo
              = some ((b.prestar isbn p t1 t2 d).1.libros.map Libro.to_dict))
        ∨ ((b.prestar isbn p t1 t2 d).2 ≠ Except.ok true
          ∧ (b.prestar isbn p t1 t2 d).1 = b)) := by
  cases hb : b.buscar_por_isbn isbn with
  | none =>
      exact ⟨by simp [Biblioteca.prestar, hb],
        by simp [Biblioteca.prestar, hb, Option.elim],
        Or.inr ⟨by simp [Biblioteca.prestar, hb], by simp [Biblioteca.prestar, hb]⟩⟩
  | some l =>
      rcases hpl : prestar_libro l p t1 t2 d with ⟨l2, r⟩
      cases r with
      | error e =>
          have he : e = BibError.invalidArgument :=
            prestar_libro_error_inv (by rw [hpl])
          subst he
          exact ⟨by simp [Biblioteca.prestar, hb, hpl],
            by simp [Biblioteca.prestar, hb, hpl, Option.elim],
            Or.inr ⟨by simp [Biblioteca.prestar, hb, hpl],
              by simp [Biblioteca.prestar, hb, hpl]⟩⟩
      | ok performed =>
          cases performed with
          | false =>
              exact ⟨by simp [Biblioteca.prestar, hb, hpl],
                by simp [Biblioteca.prestar, hb, hpl, Option.elim],
                Or.inr ⟨by simp [Biblioteca.prestar, hb, hpl],
                  by simp [Biblioteca.prestar, hb, hpl]⟩⟩
          | true =>
              exact ⟨by simp [Biblioteca.prestar, hb, hpl],
                by simp [Biblioteca.prestar, hb, hpl, Option.elim],
                Or.inl ⟨by simp [Biblioteca.prestar, hb, hpl],
                  by simp [Biblioteca.prestar, hb, hpl, Biblioteca.guardar_datos]⟩⟩

/-- Catalog return: not-found error exactly on a missing ISBN, outcome
delegated to `devolver_libro`, persistence exactly on a performed
return. -/
lemma devolver_spec_aux (b : Biblioteca) (isbn : String) :
    ((b.devolver isbn).2 = Except.error BibError.notFound
        ↔ b.buscar_por_isbn isbn = none)
    ∧ (b.devolver isbn).2
        = (b.buscar_por_isbn isbn).elim (Except.error BibError.notFound)
            (fun l => Except.ok (devolver_libro l).2)
    ∧ (((b.devolver isbn).2 = Except.ok true
          ∧ (b.devolver isbn).1.archivo
              = some ((b.devolver isbn).1.libros.map Libro.to_dict))
        ∨ ((b.devolver isbn).2 ≠ Except.ok true ∧ (b.devolver isbn).1 = b)) := by
  cases hb : b.buscar_por_isbn isbn with
  | none =>
      exact ⟨by simp [Biblioteca.devolver, hb],
        by simp [Biblioteca.devolver, hb, Option.elim],
        Or.inr ⟨by simp [Biblioteca.devolver, hb], by simp [Biblioteca.devolver, hb]⟩⟩
  | some l =>
      rcases hdv : devolver_libro l with ⟨l2, r⟩
      cases r with
      | false =>
          exact ⟨by simp [Biblioteca.devolver, hb, hdv],
            by simp [Biblioteca.devolver, hb, hdv, Option.elim],
            Or.inr ⟨by simp [Biblioteca.devolver, hb, hdv],
              by simp [Biblioteca.devolver, hb, hdv]⟩⟩
      | true =>
          exact ⟨by simp [Biblioteca.devolver, hb, hdv],
            by simp [Biblioteca.devolver, hb, hdv, Option.elim],
            Or.inl ⟨by simp [Biblioteca.devolver, hb, hdv],
              by simp [Biblioteca.devolver, hb, hdv, Biblioteca.guardar_datos]⟩⟩

/-- C8: the catalog lend and return fail with the not-found error if and
only if no record has the given ISBN; when a record matches, the outcome
is exactly the delegated loan operation's outcome (a blank-borrower error
propagates as such, never as not-found), and the file is rewritten exactly
when the operation was performed, otherwise the whole state is
unchanged. -/
theorem prestar_devolver_spec (b : Biblioteca) (isbn p : String) (t1 t2 d : Int) :
    ((b.prestar isbn p t1 t2 d).2 = Except.error BibError.notFound
        ↔ b.buscar_por_isbn isbn = none)
    ∧ ((b.devolver isbn).2 = Except.error BibError.notFound
        ↔ b.buscar_por_isbn isbn = none)
    ∧ (b.prestar isbn p t1 t2 d).2
        = (b.buscar_por_isbn isbn).elim (Except.error BibError.notFound)
            (fun l => (prestar_libro l p t1 t2 d).2)
    ∧ (b.devolver isbn).2
        = (b.buscar_por_isbn isbn).elim (Except.error BibError.notFound)
            (fun l => Except.ok (devolver_libro l).2)
    ∧ (((b.prestar isbn p t1 t2 d).2 = Except.ok true
          ∧ (b.prestar isbn p t1 t2 d).1.archivo
              = some ((b.prestar isbn p t1 t2 d).1.libros.map Libro.to_dict))
        ∨ ((b.prestar isbn p t1 t2 d).2 ≠ Except.ok true
          ∧ (b.prestar isbn p t1 t2 d).1 = b))
    ∧ (((b.devolver isbn).2 = Except.ok true
          ∧ (b.devolver isbn).1.archivo
              = some ((b.devolver isbn).1.libros.map Libro.to_dict))
        ∨ ((b.devolver isbn).2 ≠ Except.ok true ∧ (b.devolver isbn).1 = b)) :=
  ⟨(prestar_spec_aux b isbn p t1 t2 d).1, (devolver_spec_aux b isbn).1,
   (prestar_spec_aux b isbn p t1 t2 d).2.1, (devolver_spec_aux b isbn).2.1,
   (prestar_spec_aux b isbn p t1 t2 d).2.2, (devolver_spec_aux b isbn).2.2⟩

/-! ### Deserialization of incomplete records -/

/-- The only error `from_dict` produces is the corrupt-data one. -/
lemma from_dict_error_inv {d : LibroDict} {e : BibError}
    (h : Libro.from_dict d = Except.error e) : e = BibError.corruptData := by
  obtain ⟨dt, da, di, dg, dd, dfp, dfd, dpr⟩ := d
  cases dt <;> cases da <;> cases di <;> simp_all [Libro.from_dict]

/-- A record dictionary missing one of the subscripted keys makes
`from_dict` fail. -/
lemma from_dict_missing_required {d : LibroDict}
    (h : d.titulo = none ∨ d.autor = none ∨ d.isbn = none) :
    Libro.from_dict d = Except.error BibError.corruptData := by
  obtain ⟨dt, da, di, dg, dd, dfp, dfd, dpr⟩ := d
  cases dt <;> cases da <;> cases di <;> simp_all [Libro.from_dict]

/-- One failing dictionary anywhere in the list makes the whole
deserialization loop fail. -/
lemma cargar_lista_error_of_mem {ds : List LibroDict} {d : LibroDict}
    (hmem : d ∈ ds)
    (hd : Libro.from_dict d = Except.error BibError.corruptData) :
    cargar_lista ds = Except.error BibError.corruptData := by
  induction ds with
  | nil => cases hmem
  | cons a as ih =>
      rcases List.mem_cons.mp hmem with rfl | hmem2
      · simp [cargar_lista, hd]
      · cases ha : Libro.from_dict a with
        | error e =>
            have he := from_dict_error_inv ha
            subst he
            simp [cargar_lista, ha]
        | ok l => simp [cargar_lista, ha, ih hmem2]

/-- Record dictionary with the `disponible` (available) key absent but all
subscripted keys present. -/
def dictSinDisponible : LibroDict :=
  { titulo := some "t", autor := some "a", isbn := some "i", genero := some "g"
    disponible := none, fecha_prestamo := none, fecha_devolucion := none
    prestatario := none }

/-- Counterexample to C9 as stated: a persisted record missing the
required `available` flag does not make the load fail; `from_dict`
constructs a record with the defaulted value `disponible = true` and
catalog initialization succeeds. -/
theorem cargar_missing_available_counterexample :
    Libro.from_dict dictSinDisponible
      = Except.ok
          { titulo := "t", autor := "a", isbn := "i", genero := "g"
            disponible := true, fecha_prestamo := none, fecha_devolucion := none
            prestatario := none }
    ∧ Biblioteca.cargar_datos (some [dictSinDisponible])
      = Except.ok
          [{ titulo := "t", autor := "a", isbn := "i", genero := "g"
             disponible := true, fecha_prestamo := none, fecha_devolucion := none
             prestatario := none }]
    ∧ Biblioteca.init (some [dictSinDisponible])
      = Except.ok
          { libros := [{ titulo := "t", autor := "a", isbn := "i", genero := "g"
                         disponible := true, fecha_prestamo := none
                         fecha_devolucion := none, prestatario := none }]
            archivo := some [dictSinDisponible] } :=
  ⟨rfl, rfl, rfl⟩

/-- C9 (amended): the load fails with the corrupt-data error whenever some
record object in the document is missing `titulo`, `autor` or `isbn` (the
subscripted keys), and the error is fatal to catalog initialization;
missing `genero`, `disponible` or loan keys are instead defaulted. -/
theorem cargar_missing_required_spec (ds : List LibroDict) (d : LibroDict)
    (hmem : d ∈ ds)
    (h : d.titulo = none ∨ d.autor = none ∨ d.isbn = none) :
    Biblioteca.cargar_datos (some ds) = Except.error BibError.corruptData
    ∧ Biblioteca.init (some ds) = Except.error BibError.corruptData := by
  have hc := cargar_lista_error_of_mem hmem (from_dict_missing_required h)
  exact ⟨by simp [Biblioteca.cargar_datos, hc],
    by simp [Biblioteca.init, Biblioteca.cargar_datos, hc]⟩

/-- Record dictionary with the `titulo` key absent. -/
def dictSinTitulo : LibroDict :=
  { titulo := none, autor := some "a", isbn := some "i", genero := none
    disponible := none, fecha_prestamo := none, fecha_devolucion := none
    prestatario := none }

/-- Witness for C9 (amended) on a one-record document missing its
title. -/
theorem cargar_missing_required_spec_witness :
    Biblioteca.cargar_datos (some [dictSinTitulo])
        = Except.error BibError.corruptData
    ∧ Biblioteca.init (some [dictSinTitulo])
        = Except.error BibError.corruptData :=
  ⟨(cargar_missing_required_spec [dictSinTitulo] dictSinTitulo (by simp)
      (Or.inl rfl)).1,
   (cargar_missing_required_spec [dictSinTitulo] dictSinTitulo (by simp)
      (Or.inl rfl)).2⟩

end Biblio

namespace Biblio

/-! ### Reachability and the loan-state invariant -/

/-- Book states reachable through the public operations: constructed by
`agregar_libro` (which builds `Libro.init`), then mutated only by
`prestar_libro` and `devolver_libro`. -/
inductive ReachableLibro : Libro → Prop where
  | add (titulo autor isbn genero : String) :
      ReachableLibro (Libro.init titulo autor isbn genero)
  | lend (l : Libro) (p : String) (now1 now2 dias : Int) :
      ReachableLibro l → ReachableLibro (prestar_libro l p now1 now2 dias).1
  | ret (l : Libro) :
      ReachableLibro l → ReachableLibro (devolver_libro l).1

/-- The loan-state invariant of the data model: unavailable exactly when
all three loan fields are present, available exactly when all three are
absent. -/
def loanInvariant (l : Libro) : Prop :=
  (l.disponible = false ↔
      l.fecha_prestamo.isSome ∧ l.fecha_devolucion.isSome ∧ l.prestatario.isSome)
  ∧ (l.disponible = true ↔
      l.fecha_prestamo = none ∧ l.fecha_devolucion = none ∧ l.prestatario = none)

/-- C1: every book reachable through the public operations (built by add,
then mutated only by lend and return) satisfies the loan-state invariant:
`disponible = false` exactly when `fecha_prestamo`, `fecha_devolucion` and
`prestatario` are all present, and `disponible = true` exactly when all
three are absent; each operation preserves this. -/
theorem reachable_loanInvariant (l : Libro) (h : ReachableLibro l) :
    loanInvariant l := by
  induction h with
  | add t a i g => simp [loanInvariant, Libro.init]
  | lend l p n1 n2 d _ ih =>
      by_cases hp : strip p = ""
      · simpa [prestar_libro, hp] using ih
      · by_cases hd : l.disponible = false
        · simpa [prestar_libro, hp, hd] using ih
        · simp [prestar_libro, hp, hd, loanInvariant]
  | ret l _ ih =>
      by_cases hd : l.disponible
      · simpa [devolver_libro, hd] using ih
      · simp [devolver_libro, hd, loanInvariant]

/-- Witness for C1 at a concrete reachable state: add a book, lend it,
return it. -/
theorem reachable_loanInvariant_witness :
    loanInvariant (devolver_libro
      (prestar_libro (Libro.init "1984" "Orwell" "111" "Novela") "Alice" 0 0 14).1).1 :=
  reachable_loanInvariant _
    (ReachableLibro.ret _ (ReachableLibro.lend _ "Alice" 0 0 14
      (ReachableLibro.add "1984" "Orwell" "111" "Novela")))

/-! ### Serialization round-trip -/

/-- Per-record round-trip through the flat dictionary form. -/
lemma from_dict_to_dict (l : Libro) :
    Libro.from_dict (Libro.to_dict l) = Except.ok l := rfl

/-- List-level round-trip of the deserialization loop. -/
lemma cargar_lista_map_to_dict (ls : List Libro) :
    cargar_lista (ls.map Libro.to_dict) = Except.ok ls := by
  induction ls with
  | nil => rfl
  | cons x xs ih => simp [cargar_lista, from_dict_to_dict, ih]

/-- C2: converting a book to the flat key-value form and back is the
identity in every loan state, and deserializing the serialization of any
sequence of books reproduces the same sequence. -/
theorem to_dict_from_dict_roundtrip (l : Libro) (ls : List Libro) :
    Libro.from_dict (Libro.to_dict l) = Except.ok l
    ∧ Biblioteca.cargar_datos (some (ls.map Libro.to_dict)) = Except.ok ls :=
  ⟨from_dict_to_dict l, by simp [Biblioteca.cargar_datos, cargar_lista_map_to_dict]⟩

/-! ### Blank borrower validation -/

/-- C3: `prestar_libro` raises exactly on a blank (empty or
whitespace-only) borrower name; in that case the book is unchanged, and
with a non-blank name no error of any kind is raised. -/
theorem prestar_libro_blank_spec (l : Libro) (p : String) (t1 t2 d : Int)
    (h : strip p = "") :
    (prestar_libro l p t1 t2 d).2 = Except.error BibError.invalidArgument
    ∧ (prestar_libro l p t1 t2 d).1 = l
    ∧ ∀ q : String, strip q ≠ "" →
        ∀ e, (prestar_libro l q t1 t2 d).2 ≠ Except.error e := by
  refine ⟨by simp [prestar_libro, h], by simp [prestar_libro, h], ?_⟩
  intro q hq e
  simp only [prestar_libro, if_neg hq]
  split <;> simp

/-- Witness for C3 at a whitespace-only borrower name. -/
theorem prestar_libro_blank_spec_witness :
    (prestar_libro (Libro.init "1984" "Orwell" "111" "Novela") "   " 0 0 14).2
        = Except.error BibError.invalidArgument
    ∧ (prestar_libro (Libro.init "1984" "Orwell" "111" "Novela") "   " 0 0 14).1
        = Libro.init "1984" "Orwell" "111" "Novela" :=
  ⟨(prestar_libro_blank_spec _ "   " 0 0 14 (by decide)).1,
   (prestar_libro_blank_spec _ "   " 0 0 14 (by decide)).2.1⟩

/-! ### Adding books -/

/-- C4: adding with an ISBN already in the catalog fails with a
duplicate-key error and leaves the whole catalog state unchanged; adding
with a fresh ISBN appends a new record that is available with no loan
fields and returns it. -/
theorem agregar_libro_spec (b : Biblioteca) (t a i g : String) :
    (b.buscar_por_isbn i).elim
      ((b.agregar_libro t a i g).1.libros = b.libros ++ [Libro.init t a i g]
        ∧ (b.agregar_libro t a i g).2 = Except.ok (Libro.init t a i g)
        ∧ (Libro.init t a i g).disponible = true
        ∧ (Libro.init t a i g).fecha_prestamo = none
        ∧ (Libro.init t a i g).fecha_devolucion = none
        ∧ (Libro.init t a i g).prestatario = none)
      (fun _ =>
        (b.agregar_libro t a i g).1 = b
        ∧ (b.agregar_libro t a i g).2 = Except.error BibError.duplicateKey) := by
  cases h : b.buscar_por_isbn i with
  | none =>
      simp [Biblioteca.agregar_libro, h, Biblioteca.guardar_datos, Libro.init]
  | some l =>
      simp [Biblioteca.agregar_libro, h]

/-! ### Due date computed from a second clock sample -/

/-- Book used as the concrete input of counterexamples and witnesses. -/
def libroEjemplo : Libro := Libro.init "1984" "Orwell" "111" "Novela"

/-- Counterexample to C5 as stated: a performed loan in which the clock
advances by one microsecond between the two `datetime.now()` calls of the
source (line 105 and line 106) yields `fecha_devolucion` different from
`fecha_prestamo` plus 14 days. -/
theorem prestar_due_counterexample :
    (prestar_libro libroEjemplo "Bob" 0 1 14).2 = Except.ok true
    ∧ (prestar_libro libroEjemplo "Bob" 0 1 14).1.fecha_prestamo = some 0
    ∧ (prestar_libro libroEjemplo "Bob" 0 1 14).1.fecha_devolucion ≠
        some (0 + 14 * microsecondsPerDay) := by
  refine ⟨rfl, rfl, ?_⟩
  intro h
  simp [prestar_libro, strip, libroEjemplo, Libro.init, microsecondsPerDay] at h

/-- C5 (amended): after a performed loan, `fecha_prestamo` is the first
clock sample and `fecha_devolucion` is the second clock sample plus
exactly `dias` days, for every `dias`; whenever the two samples coincide,
`fecha_devolucion` equals `fecha_prestamo` plus exactly `dias` days. -/
theorem prestar_due_spec (l : Libro) (p : String) (t1 t2 d : Int)
    (h1 : l.disponible = true) (h2 : strip p ≠ "") :
    (prestar_libro l p t1 t2 d).2 = Except.ok true
    ∧ (prestar_libro l p t1 t2 d).1.fecha_prestamo = some t1
    ∧ (prestar_libro l p t1 t2 d).1.fecha_devolucion
        = some (t2 + d * microsecondsPerDay)
    ∧ (t1 = t2 →
        (prestar_libro l p t1 t2 d).1.fecha_devolucion
          = some (t1 + d * microsecondsPerDay)) := by
  refine ⟨?_, ?_, ?_, ?_⟩ <;> simp [prestar_libro, h1, h2]
  intro h
  simp [h]

/-- Witness for C5 (amended) at a concrete loan with coinciding clock
samples. -/
theorem prestar_due_spec_witness :
    (prestar_libro libroEjemplo "Bob" 5 5 14).2 = Except.ok true
    ∧ (prestar_libro libroEjemplo "Bob" 5 5 14).1.fecha_devolucion
        = some (5 + 14 * microsecondsPerDay) :=
  ⟨(prestar_due_spec libroEjemplo "Bob" 5 5 14 rfl (by decide)).1,
   (prestar_due_spec libroEjemplo "Bob" 5 5 14 rfl (by decide)).2.2.2 rfl⟩

/-! ### Lend-then-return round trip -/

/-- C6: lending an available book to a valid (non-blank) borrower and then
returning it restores availability and leaves all three loan fields
absent, while the identifying fields are untouched. -/
theorem lend_return_roundtrip (l : Libro) (p : String) (t1 t2 d : Int)
    (h1 : l.disponible = true) (h2 : strip p ≠ "") :
    (prestar_libro l p t1 t2 d).2 = Except.ok true
    ∧ (devolver_libro (prestar_libro l p t1 t2 d).1).2 = true
    ∧ (devolver_libro (prestar_libro l p t1 t2 d).1).1.disponible = true
    ∧ (devolver_libro (prestar_libro l p t1 t2 d).1).1.prestatario = none
    ∧ (devolver_libro (prestar_libro l p t1 t2 d).1).1.fecha_prestamo = none
    ∧ (devolver_libro (prestar_libro l p t1 t2 d).1).1.fecha_devolucion = none
    ∧ (devolver_libro (prestar_libro l p t1 t2 d).1).1.titulo = l.titulo
    ∧ (devolver_libro (prestar_libro l p t1 t2 d).1).1.autor = l.autor
    ∧ (devolver_libro (prestar_libro l p t1 t2 d).1).1.isbn = l.isbn
    ∧ (devolver_libro (prestar_libro l p t1 t2 d).1).1.genero = l.genero := by
  refine ⟨?_, ?_, ?_, ?_, ?_, ?_, ?_, ?_, ?_, ?_⟩ <;>
    simp [prestar_libro, devolver_libro, h1, h2]

/-- Witness for C6 at a concrete available book and borrower. -/
theorem lend_return_roundtrip_witness :
    (devolver_libro (prestar_libro libroEjemplo "Alice" 3 4 14).1).1.disponible = true
    ∧ (devolver_libro (prestar_libro libroEjemplo "Alice" 3 4 14).1).1.prestatario = none :=
  ⟨(lend_return_roundtrip libroEjemplo "Alice" 3 4 14 rfl (by decide)).2.2.1,
   (lend_return_roundtrip libroEjemplo "Alice" 3 4 14 rfl (by decide)).2.2.2.1⟩

end Biblio
